import Mathlib

/-!
Shallow embedding of the `fcntl` crate (`src/lib.rs`): a wrapper around the
`fcntl(2)` advisory record-locking syscall.

Modelling conventions:
* C integers (`c_int`, `c_short`, `off_t`, `pid_t`) are modelled as `Int`;
  the fallible `c_int -> c_short` conversion (`TryInto`) is modelled by an
  explicit range check returning `Option Int`.
* The one syscall a call to `fcntl` issues is modelled by a universally
  quantified `SyscallResult` oracle: the raw return value, the `flock`
  structure after possible kernel write-back, and the state of the
  thread-local errno indicator (whether the errno pointer is null, and the
  value stored there).
* Each operation returns, next to its result, the list of syscall
  invocations it performed (descriptor, platform command code, and the
  `flock` structure passed in), so "which command was issued with which
  argument" and "no syscall was issued" are statable.
* Platform constants are the Linux values the crate compiles against
  (the non-macos `cfg` branch): `F_RDLCK = 0`, `F_WRLCK = 1`, `F_UNLCK = 2`,
  `F_GETLK = 5`, `F_SETLK = 6`, `F_SETLKW = 7`, `EAGAIN = 11`, `EACCES = 13`,
  `F_OFD_SETLKW = 38` (hardcoded as `38` in the source).
-/

/-- Platform constant `F_RDLCK` (read lock kind). -/
def F_RDLCK : Int := 0

/-- Platform constant `F_WRLCK` (write lock kind). -/
def F_WRLCK : Int := 1

/-- Platform constant `F_UNLCK` (unlocked sentinel). -/
def F_UNLCK : Int := 2

/-- Platform constant `F_GETLK` (query lock). -/
def F_GETLK : Int := 5

/-- Platform constant `F_SETLK` (non-blocking set lock). -/
def F_SETLK : Int := 6

/-- Platform constant `F_SETLKW` (blocking set lock). -/
def F_SETLKW : Int := 7

/-- Platform error number `EAGAIN` (resource temporarily unavailable). -/
def EAGAIN : Int := 11

/-- Platform error number `EACCES` (permission/availability conflict). -/
def EACCES : Int := 13

/-- The `libc::flock` structure: lock kind, offset reference mode, starting
offset, length and holding-process id. All fields are C integers, modelled
as `Int`. -/
structure flock where
  l_type : Int
  l_whence : Int
  l_start : Int
  l_len : Int
  l_pid : Int
  deriving DecidableEq

/-- `TryInto<c_short> for c_int`: succeeds exactly when the value fits the
16-bit signed range. -/
def c_short_try_from (n : Int) : Option Int :=
  if -32768 ≤ n ∧ n ≤ 32767 then some n else none

/-- The `FcntlArg` enum: allowed payload types for the `arg` parameter of the
`fcntl` syscall. Currently only the `flock` variant exists. -/
inductive FcntlArg where
  | Flock (f : flock)
  deriving DecidableEq

/-- The `FcntlCmd` enum: allowed commands for the `fcntl` syscall. -/
inductive FcntlCmd where
  | SetLock
  | SetLockWait
  | GetLock
  | OpenFileDescriptorSetLockWait
  deriving DecidableEq

/-- The `FcntlError` enum returned by functions of the crate. -/
inductive FcntlError where
  | CommandNotImplemented (cmd : FcntlCmd)
  | Errno (rv : Int) (errno : Option Int)
  | Internal
  | InvalidArgForCmd
  deriving DecidableEq

/-- The `FcntlLockType` enum: which types of lock can be set onto files. -/
inductive FcntlLockType where
  | Read
  | Write
  deriving DecidableEq

/-- `From<FcntlCmd> for c_int`: the fixed command-code mapping table. -/
def FcntlCmd.toCInt : FcntlCmd → Int
  | .GetLock => F_GETLK
  | .SetLock => F_SETLK
  | .SetLockWait => F_SETLKW
  | .OpenFileDescriptorSetLockWait => 38

/-- `From<FcntlLockType> for c_short`: `try_into().unwrap()` on the matching
platform constant; `Option.get!` models the `unwrap`. -/
def FcntlLockType.toCShort : FcntlLockType → Int
  | .Read => (c_short_try_from F_RDLCK).get!
  | .Write => (c_short_try_from F_WRLCK).get!

/-- `FlockOperations::default` for `flock`: sets all fields to 0. -/
def flock.default : flock := ⟨0, 0, 0, 0, 0⟩

/-- `FlockOperations::with_l_type`: builder that sets `l_type` to the given
value and returns the updated copy. -/
def flock.with_l_type (f : flock) (t : Int) : flock :=
  ⟨t, f.l_whence, f.l_start, f.l_len, f.l_pid⟩

/-- `FlockOperations::with_locktype`: builder that sets `l_type` to the
converted `FcntlLockType` and returns the updated copy. -/
def flock.with_locktype (f : flock) (lt : FcntlLockType) : flock :=
  ⟨lt.toCShort, f.l_whence, f.l_start, f.l_len, f.l_pid⟩

/-- Outcome of the single syscall a call may issue: raw return value, the
`flock` structure after possible kernel write-back, whether the errno
pointer (`__errno_location`) is null, and the errno value stored there. -/
structure SyscallResult where
  rv : Int
  flockOut : flock
  errnoPtrNull : Bool
  errnoVal : Int
  deriving DecidableEq

/-- One recorded syscall invocation: the raw descriptor, the platform command
code, and the `flock` structure passed to the kernel. -/
structure SyscallTrace where
  fd : Int
  cmdCode : Int
  flockIn : flock
  deriving DecidableEq

/-- The pattern match `FcntlArg::Flock(flock) => ...` of the source: extracts
the `flock` payload; `none` is the source's `_` fallback arm for a payload
variant that does not match. -/
def argFlock : FcntlArg → Option flock
  | .Flock f => some f

/-- The errno capture of the source: `None` if the errno pointer is null,
otherwise the value read through it immediately after the syscall. -/
def capturedErrno (sys : SyscallResult) : Option Int :=
  if sys.errnoPtrNull then none else some sys.errnoVal

/-- The body of `fcntl` after command dispatch: on a matching (`Flock`)
payload issue the syscall once and interpret `rv`; on a non-matching payload
(`none`, the `_` arm) return `InvalidArgForCmd` and issue no syscall. -/
def fcntlOnFlock (sys : SyscallResult) (fd : Int) (cmd : FcntlCmd) :
    Option flock → Except FcntlError FcntlArg × List SyscallTrace
  | some fl =>
    if sys.rv = 0 then
      (Except.ok (FcntlArg.Flock sys.flockOut), [⟨fd, cmd.toCInt, fl⟩])
    else
      (Except.error (FcntlError.Errno sys.rv (capturedErrno sys)),
        [⟨fd, cmd.toCInt, fl⟩])
  | none => (Except.error FcntlError.InvalidArgForCmd, [])

/-- The crate's `fcntl` function: dispatch on the command (all four commands
share one arm in the source), then on the payload variant. -/
def fcntl (sys : SyscallResult) (fd : Int) (cmd : FcntlCmd) (arg : FcntlArg) :
    Except FcntlError FcntlArg × List SyscallTrace :=
  match cmd with
  | .GetLock | .SetLock | .SetLockWait | .OpenFileDescriptorSetLockWait =>
    fcntlOnFlock sys fd cmd (argFlock arg)

/-- Interpretation of a successful `GetLock` result in `is_file_locked`:
compare the returned `l_type` against the unlocked sentinel; a non-`Flock`
result (`none`, the source's `Ok(_)` arm) is the `Internal` error. -/
def interpretLockedResult : Option flock → Except FcntlError Bool
  | some result => Except.ok (result.l_type != (c_short_try_from F_UNLCK).get!)
  | none => Except.error FcntlError.Internal

/-- Interpretation of a successful `SetLock`/`SetLockWait` result in
`lock_file` and `unlock_file`: `Ok(Flock(_)) => Ok(true)`; a non-`Flock`
result (`none`, the source's `Ok(_)` arm) is the `Internal` error. -/
def interpretSetResult : Option flock → Except FcntlError Bool
  | some _ => Except.ok true
  | none => Except.error FcntlError.Internal

/-- The crate's `is_file_locked`: query with `GetLock` (zeroed descriptor if
none supplied) and interpret the returned `l_type`. -/
def is_file_locked (sys : SyscallResult) (fd : Int) (fl : Option flock) :
    Except FcntlError Bool × List SyscallTrace :=
  let arg := match fl with
    | some f => FcntlArg.Flock f
    | none => FcntlArg.Flock flock.default
  let res := fcntl sys fd FcntlCmd.GetLock arg
  (match res.fst with
    | Except.ok r => interpretLockedResult (argFlock r)
    | Except.error err => Except.error err,
   res.snd)

/-- The crate's `lock_file`: overwrite `l_type` with the requested lock kind
(`Read` if none supplied; zeroed descriptor if none supplied), issue
`SetLockWait`, and recover `EACCES`/`EAGAIN` failures into `Ok(false)`. -/
def lock_file (sys : SyscallResult) (fd : Int) (fl : Option flock)
    (locktype : Option FcntlLockType) :
    Except FcntlError Bool × List SyscallTrace :=
  let lt := locktype.getD FcntlLockType.Read
  let arg := match fl with
    | some f => FcntlArg.Flock (f.with_locktype lt)
    | none => FcntlArg.Flock (flock.default.with_locktype lt)
  let res := fcntl sys fd FcntlCmd.SetLockWait arg
  (match res.fst with
    | Except.ok r => interpretSetResult (argFlock r)
    | Except.error (FcntlError.Errno rv (some e)) =>
      if e = EACCES ∨ e = EAGAIN then Except.ok false
      else Except.error (FcntlError.Errno rv (some e))
    | Except.error err => Except.error err,
   res.snd)

/-- The crate's `unlock_file`: overwrite `l_type` with `F_UNLCK` (zeroed
descriptor if none supplied), issue `SetLock`, and propagate every failure. -/
def unlock_file (sys : SyscallResult) (fd : Int) (fl : Option flock) :
    Except FcntlError Bool × List SyscallTrace :=
  let arg := match fl with
    | some f => FcntlArg.Flock (f.with_l_type ((c_short_try_from F_UNLCK).get!))
    | none =>
      FcntlArg.Flock (flock.default.with_l_type ((c_short_try_from F_UNLCK).get!))
  let res := fcntl sys fd FcntlCmd.SetLock arg
  (match res.fst with
    | Except.ok r => interpretSetResult (argFlock r)
    | Except.error err => Except.error err,
   res.snd)

/-- Classifier used to state unreachability of the internal error variants:
`true` on `Ok` results and on `Errno` failures, `false` on
`CommandNotImplemented`, `Internal` and `InvalidArgForCmd`. -/
def okOrErrno {α : Type} : Except FcntlError α → Bool
  | Except.ok _ => true
  | Except.error (FcntlError.Errno _ _) => true
  | Except.error _ => false

theorem fcntl_flock_eq (sys : SyscallResult) (fd : Int) (cmd : FcntlCmd) (f : flock) :
    fcntl sys fd cmd (FcntlArg.Flock f) =
      (if sys.rv = 0 then Except.ok (FcntlArg.Flock sys.flockOut)
       else Except.error (FcntlError.Errno sys.rv (capturedErrno sys)),
       [⟨fd, cmd.toCInt, f⟩]) := by
  cases cmd <;> by_cases h : sys.rv = 0 <;> simp [fcntl, fcntlOnFlock, argFlock, h]

theorem is_file_locked_eq (sys : SyscallResult) (fd : Int) (fl : Option flock) :
    is_file_locked sys fd fl =
      (if sys.rv = 0
       then Except.ok (sys.flockOut.l_type != (c_short_try_from F_UNLCK).get!)
       else Except.error (FcntlError.Errno sys.rv (capturedErrno sys)),
       [⟨fd, FcntlCmd.toCInt FcntlCmd.GetLock, fl.getD flock.default⟩]) := by
  cases fl <;> by_cases h : sys.rv = 0 <;>
    simp [is_file_locked, fcntl_flock_eq, interpretLockedResult, argFlock, h]

theorem lock_file_eq (sys : SyscallResult) (fd : Int) (fl : Option flock)
    (lt : Option FcntlLockType) :
    lock_file sys fd fl lt =
      (if sys.rv = 0 then Except.ok true
       else if sys.errnoPtrNull then Except.error (FcntlError.Errno sys.rv none)
       else if sys.errnoVal = EACCES ∨ sys.errnoVal = EAGAIN then Except.ok false
       else Except.error (FcntlError.Errno sys.rv (some sys.errnoVal)),
       [⟨fd, FcntlCmd.toCInt FcntlCmd.SetLockWait,
         (fl.getD flock.default).with_locktype (lt.getD FcntlLockType.Read)⟩]) := by
  cases fl <;> cases lt <;> by_cases h : sys.rv = 0 <;>
    by_cases hn : sys.errnoPtrNull <;>
    simp [lock_file, fcntl_flock_eq, interpretSetResult, argFlock, capturedErrno, h, hn]

theorem unlock_file_eq (sys : SyscallResult) (fd : Int) (fl : Option flock) :
    unlock_file sys fd fl =
      (if sys.rv = 0 then Except.ok true
       else Except.error (FcntlError.Errno sys.rv (capturedErrno sys)),
       [⟨fd, FcntlCmd.toCInt FcntlCmd.SetLock,
         (fl.getD flock.default).with_l_type ((c_short_try_from F_UNLCK).get!)⟩]) := by
  cases fl <;> by_cases h : sys.rv = 0 <;>
    simp [unlock_file, fcntl_flock_eq, interpretSetResult, argFlock, h]

/-- C1: when the syscall inside lock_file fails (non-zero return value), a
captured errno equal to EACCES or EAGAIN yields Ok(false); every other
failure — including one with no captured errno — is returned unchanged as
Err; on success the result is Ok(true). -/
theorem C1_lock_file_error_recovery (sys : SyscallResult) (fd : Int)
    (fl : Option flock) (lt : Option FcntlLockType) :
    (lock_file sys fd fl lt).fst =
      if sys.rv = 0 then Except.ok true
      else if sys.errnoPtrNull then Except.error (FcntlError.Errno sys.rv none)
      else if sys.errnoVal = EACCES ∨ sys.errnoVal = EAGAIN then Except.ok false
      else Except.error (FcntlError.Errno sys.rv (some sys.errnoVal)) := by
  simp [lock_file_eq]

/-- C2: every call to lock_file passes to the syscall a descriptor whose
l_type field has been overwritten with the requested lock kind (Read when the
locktype argument is absent, applied to the zeroed default descriptor when the
descriptor argument is absent), and issues exactly the blocking command
F_SETLKW, which differs from the non-blocking F_SETLK. -/
theorem C2_lock_file_overwrites_type_and_blocks (sys : SyscallResult) (fd : Int)
    (fl : Option flock) (lt : Option FcntlLockType) :
    (lock_file sys fd fl lt).snd =
      [⟨fd, FcntlCmd.toCInt FcntlCmd.SetLockWait,
        (fl.getD flock.default).with_locktype (lt.getD FcntlLockType.Read)⟩] ∧
    ((fl.getD flock.default).with_locktype (lt.getD FcntlLockType.Read)).l_type =
      FcntlLockType.toCShort (lt.getD FcntlLockType.Read) ∧
    FcntlCmd.toCInt FcntlCmd.SetLockWait = F_SETLKW ∧
    decide (F_SETLKW = F_SETLK) = false := by
  refine ⟨?_, rfl, rfl, by decide⟩
  simp [lock_file_eq]

/-- C3: unlock_file passes to the syscall a descriptor whose l_type field is
set to the unlocked sentinel F_UNLCK regardless of the caller-supplied value
(the zeroed default descriptor when the descriptor argument is absent),
issues exactly the non-blocking command F_SETLK, returns Ok(true) as the only
non-error result, and returns every syscall failure unchanged as Err. -/
theorem C3_unlock_file_spec (sys : SyscallResult) (fd : Int) (fl : Option flock) :
    unlock_file sys fd fl =
      (if sys.rv = 0 then Except.ok true
       else Except.error (FcntlError.Errno sys.rv (capturedErrno sys)),
       [⟨fd, FcntlCmd.toCInt FcntlCmd.SetLock,
         (fl.getD flock.default).with_l_type ((c_short_try_from F_UNLCK).get!)⟩]) ∧
    ((fl.getD flock.default).with_l_type ((c_short_try_from F_UNLCK).get!)).l_type
      = F_UNLCK ∧
    FcntlCmd.toCInt FcntlCmd.SetLock = F_SETLK ∧
    decide (F_SETLK = F_SETLKW) = false := by
  refine ⟨unlock_file_eq sys fd fl, ?_, rfl, by decide⟩
  show (c_short_try_from F_UNLCK).get! = F_UNLCK
  decide

/-- C4: is_file_locked issues the GetLock query with the supplied descriptor
(the zeroed default when absent); on success the result is Ok of the boolean
comparison of the returned l_type against the converted F_UNLCK sentinel,
which is false exactly when that field equals F_UNLCK; the non-descriptor
arm of the interpretation yields the Internal error. -/
theorem C4_is_file_locked_spec (sys : SyscallResult) (fd : Int) (fl : Option flock) :
    is_file_locked sys fd fl =
      (if sys.rv = 0
       then Except.ok (sys.flockOut.l_type != (c_short_try_from F_UNLCK).get!)
       else Except.error (FcntlError.Errno sys.rv (capturedErrno sys)),
       [⟨fd, FcntlCmd.toCInt FcntlCmd.GetLock, fl.getD flock.default⟩]) ∧
    ((sys.flockOut.l_type != (c_short_try_from F_UNLCK).get!) = false ↔
      sys.flockOut.l_type = F_UNLCK) ∧
    interpretLockedResult none = Except.error FcntlError.Internal ∧
    FcntlCmd.toCInt FcntlCmd.GetLock = F_GETLK := by
  have h2 : (c_short_try_from F_UNLCK).get! = F_UNLCK := by decide
  refine ⟨is_file_locked_eq sys fd fl, ?_, rfl, rfl⟩
  rw [h2]
  simp [bne_eq_false_iff_eq]

/-- C5: the payload-dispatch arm of fcntl for a payload that does not match
the Flock pattern (the source's wildcard arm) returns the InvalidArgForCmd
error and records no syscall invocation. -/
theorem C5_mismatched_arg_no_syscall (sys : SyscallResult) (fd : Int)
    (cmd : FcntlCmd) :
    fcntlOnFlock sys fd cmd none = (Except.error FcntlError.InvalidArgForCmd, []) :=
  rfl

/-- C6: for every command and flock payload, fcntl issues the one syscall
with the translated command code; a zero return value yields Ok of the
(possibly kernel-updated) payload, and a non-zero return value yields the
Errno error carrying the raw return value together with the captured errno,
which is None exactly when the errno pointer is null. -/
theorem C6_fcntl_errno_capture (sys : SyscallResult) (fd : Int) (cmd : FcntlCmd)
    (f : flock) :
    fcntl sys fd cmd (FcntlArg.Flock f) =
      (if sys.rv = 0 then Except.ok (FcntlArg.Flock sys.flockOut)
       else Except.error (FcntlError.Errno sys.rv
         (if sys.errnoPtrNull then none else some sys.errnoVal)),
       [⟨fd, FcntlCmd.toCInt cmd, f⟩]) := by
  rw [fcntl_flock_eq]
  rfl

/-- C7: the command-to-platform-code translation is the fixed mapping table
GetLock to F_GETLK, SetLock to F_SETLK, SetLockWait to F_SETLKW, and the
open-file-descriptor blocking variant to the fixed constant 38; being a Lean
function over the finite four-element command type, it is pure, total and
deterministic. -/
theorem C7_cmd_code_mapping :
    FcntlCmd.toCInt FcntlCmd.GetLock = F_GETLK ∧
    FcntlCmd.toCInt FcntlCmd.SetLock = F_SETLK ∧
    FcntlCmd.toCInt FcntlCmd.SetLockWait = F_SETLKW ∧
    FcntlCmd.toCInt FcntlCmd.OpenFileDescriptorSetLockWait = 38 ∧
    F_GETLK = 5 ∧ F_SETLK = 6 ∧ F_SETLKW = 7 := by
  decide

/-- C8: the unlocked sentinel compared against in is_file_locked is the
short-integer conversion of F_UNLCK, numerically equal to F_UNLCK itself,
and the conversions of F_UNLCK, F_RDLCK and F_WRLCK into the short-integer
range all succeed (return some), so the unwraps never panic. -/
theorem C8_short_conversions_total :
    c_short_try_from F_UNLCK = some F_UNLCK ∧
    (c_short_try_from F_UNLCK).get! = F_UNLCK ∧
    c_short_try_from F_RDLCK = some F_RDLCK ∧
    c_short_try_from F_WRLCK = some F_WRLCK ∧
    FcntlLockType.toCShort FcntlLockType.Read = F_RDLCK ∧
    FcntlLockType.toCShort FcntlLockType.Write = F_WRLCK ∧
    F_UNLCK = 2 := by
  decide

/-- C9: the builders with_l_type and with_locktype return a new descriptor
whose l_type equals the given value while l_whence, l_start, l_len and l_pid
are unchanged, and the default constructor returns the descriptor with all
five fields zero; all operations are value-level and mutate nothing in
place. -/
theorem C9_builder_frame (f : flock) (t : Int) (lt : FcntlLockType) :
    (f.with_l_type t).l_type = t ∧
    (f.with_l_type t).l_whence = f.l_whence ∧
    (f.with_l_type t).l_start = f.l_start ∧
    (f.with_l_type t).l_len = f.l_len ∧
    (f.with_l_type t).l_pid = f.l_pid ∧
    (f.with_locktype lt).l_type = FcntlLockType.toCShort lt ∧
    (f.with_locktype lt).l_whence = f.l_whence ∧
    (f.with_locktype lt).l_start = f.l_start ∧
    (f.with_locktype lt).l_len = f.l_len ∧
    (f.with_locktype lt).l_pid = f.l_pid ∧
    flock.default = flock.mk 0 0 0 0 0 := by
  exact ⟨rfl, rfl, rfl, rfl, rfl, rfl, rfl, rfl, rfl, rfl, rfl⟩

/-- C10: no public operation ever returns CommandNotImplemented,
InvalidArgForCmd or Internal: for every oracle and every argument, fcntl,
is_file_locked, lock_file and unlock_file each return either an Ok result or
an Errno error. -/
theorem C10_internal_errors_unreachable (sys : SyscallResult) (fd : Int)
    (cmd : FcntlCmd) (arg : FcntlArg) (fl : Option flock)
    (lt : Option FcntlLockType) :
    okOrErrno (fcntl sys fd cmd arg).fst = true ∧
    okOrErrno (is_file_locked sys fd fl).fst = true ∧
    okOrErrno (lock_file sys fd fl lt).fst = true ∧
    okOrErrno (unlock_file sys fd fl).fst = true := by
  obtain ⟨f⟩ := arg
  by_cases h : sys.rv = 0 <;> by_cases hn : sys.errnoPtrNull <;>
    by_cases he : sys.errnoVal = EACCES ∨ sys.errnoVal = EAGAIN <;>
    simp [okOrErrno, fcntl_flock_eq, is_file_locked_eq, lock_file_eq,
      unlock_file_eq, capturedErrno, h, hn, he]
